import Mathlib

/-!
Formal model of the task-lifecycle core of the Rebis_Rabidmq repository
(`code_demo/api_server.py`, `code_demo/client_test.py`, `code_demo/settings.py`).

The Status Store (Redis) is modelled as an association list from keys to
parsed JSON values; the Work Channel (RabbitMQ) as the list of published
message bodies (strings).  Serialized records are modelled by a JSON value
type `Json` together with a deterministic renderer `Json.dumps` standing for
Python's `json.dumps`; TTL expiry is modelled as absence of the key.
Failures of the external store/channel operations are injected through an
`Env` record of failure flags, mirroring the `try/except` structure of the
Python code.  Timestamps are modelled as integers (`time.time()` values);
`uuid.uuid4()` is modelled by passing the fresh task id as a parameter.
-/

namespace Rebis

/-- JSON values, the parsed form of the byte strings exchanged with Redis and
RabbitMQ.  Numbers are modelled as integers (the claims under study never
depend on float arithmetic). -/
inductive Json : Type where
  | null : Json
  | bool : Bool → Json
  | num  : Int → Json
  | str  : String → Json
  | arr  : List Json → Json
  | obj  : List (String × Json) → Json
deriving Repr

/-- Escape of one character inside a JSON string literal, as `json.dumps`
does for the backslash and the double quote (escaping of control and
non-ASCII characters is elided: no claim depends on such characters). -/
def escChar (c : Char) : String :=
  if c = '\\' then "\\\\"
  else if c = '"' then "\\\""
  else String.singleton c

/-- Escape a whole string for inclusion in a JSON document. -/
def escString (s : String) : String :=
  String.join (s.data.map escChar)

mutual

/-- Deterministic rendering of a JSON value to its byte string, modelling
`json.dumps` with its default separators. -/
def Json.dumps : Json → String
  | Json.null => "null"
  | Json.bool true => "true"
  | Json.bool false => "false"
  | Json.num n => toString n
  | Json.str s => "\"" ++ escString s ++ "\""
  | Json.arr xs => "[" ++ Json.dumpsList xs ++ "]"
  | Json.obj fs => "\x7b" ++ Json.dumpsFields fs ++ "\x7d"

/-- Render the elements of a JSON array, separated by `, `. -/
def Json.dumpsList : List Json → String
  | [] => ""
  | [x] => Json.dumps x
  | x :: xs => Json.dumps x ++ ", " ++ Json.dumpsList xs

/-- Render the fields of a JSON object, separated by `, `. -/
def Json.dumpsFields : List (String × Json) → String
  | [] => ""
  | [(k, v)] => "\"" ++ escString k ++ "\": " ++ Json.dumps v
  | (k, v) :: fs => "\"" ++ escString k ++ "\": " ++ Json.dumps v ++ ", " ++ Json.dumpsFields fs

end

/-- First binding of a key in an object's field list. -/
def lookupField : List (String × Json) → String → Option Json
  | [], _ => none
  | (k', v) :: rest, k => if k' == k then some v else lookupField rest k

/-- Python `dict.get(k)` on a parsed JSON value: `none` when the value is not
an object or the key is absent. -/
def dictGet (j : Json) (k : String) : Option Json :=
  match j with
  | Json.obj fields => lookupField fields k
  | _ => none

/-- Check that a parsed JSON value is an object containing the given key. -/
def hasKey (j : Json) (k : String) : Bool :=
  (dictGet j k).isSome

/-- Constants of `code_demo/settings.py` that the task lifecycle uses. -/
def TASK_PREFIX : String := "task:"

/-- Status constant `STATUS_PENDING` of `settings.py`. -/
def STATUS_PENDING : String := "PENDING"

/-- Status constant `STATUS_PROCESSING` of `settings.py`. -/
def STATUS_PROCESSING : String := "PROCESSING"

/-- Status constant `STATUS_COMPLETED` of `settings.py`. -/
def STATUS_COMPLETED : String := "COMPLETED"

/-- Status constant `STATUS_FAILED` of `settings.py`. -/
def STATUS_FAILED : String := "FAILED"

/-- Task record TTL (`TASK_TTL`, seconds) of `settings.py`.  Expiry itself is
modelled as absence of the key from the store. -/
def TASK_TTL : Nat := 3600

/-- Redis key for a task (`Settings.get_task_key`): `"task:" + task_id`. -/
def get_task_key (task_id : String) : String :=
  TASK_PREFIX ++ task_id

/-- Task record (spec section 3).  In the Python code the record is a plain
dict; the producer (`create_task`) builds the five mandatory fields, and the
optional fields `result`, `error`, `completed_at` are filled by the
worker-side transitions. -/
structure Task : Type where
  task_id : String
  prompt : String
  metadata : List (String × Json)
  created_at : Int
  status : String
  result : Option String := none
  error : Option String := none
  completed_at : Option Int := none
deriving Repr

/-- Metadata fields of a task record as an optional-field suffix for the
serialized object: optional fields are simply omitted when absent (spec
section 6). -/
def optField (k : String) (v : Option Json) : List (String × Json) :=
  match v with
  | none => []
  | some j => [(k, j)]

/-- Serialization of a Task record to JSON, mirroring the dict built in
`create_task` (field order `task_id, prompt, metadata, created_at, status`)
with the optional fields `result`, `error`, `completed_at` appended when
present, per the field-name contract of spec section 6. -/
def taskToJson (t : Task) : Json :=
  Json.obj ([("task_id", Json.str t.task_id),
             ("prompt", Json.str t.prompt),
             ("metadata", Json.obj t.metadata),
             ("created_at", Json.num t.created_at),
             ("status", Json.str t.status)]
    ++ optField "result" (t.result.map Json.str)
    ++ optField "error" (t.error.map Json.str)
    ++ optField "completed_at" (t.completed_at.map Json.num))

/-- Deserialization of a Task record from its JSON form: reading each field
of the parsed dict by name, optional fields defaulting to absent. -/
def taskFromJson (j : Json) : Option Task :=
  match dictGet j "task_id", dictGet j "prompt", dictGet j "metadata",
        dictGet j "created_at", dictGet j "status" with
  | some (Json.str tid), some (Json.str p), some (Json.obj md),
    some (Json.num c), some (Json.str st) =>
      some { task_id := tid, prompt := p, metadata := md, created_at := c,
             status := st,
             result := match dictGet j "result" with
                       | some (Json.str r) => some r
                       | _ => none,
             error := match dictGet j "error" with
                      | some (Json.str e) => some e
                      | _ => none,
             completed_at := match dictGet j "completed_at" with
                             | some (Json.num n) => some n
                             | _ => none }
  | _, _, _, _, _ => none

/-- System state visible to the lifecycle core: the Status Store (Redis) as
an association list from keys to the parsed form of the stored byte strings
(newest binding first, lookup takes the first match), and the Work Channel
(RabbitMQ queue) as the list of published message bodies. -/
structure SysState : Type where
  redis : List (String × Json)
  queue : List String
deriving Repr

/-- Empty system state: no stored records, no queued messages. -/
def emptyState : SysState :=
  { redis := [], queue := [] }

/-- Lookup in the Status Store (`redis_client.get`): first binding of the
key, `none` when the key is absent or expired. -/
def storeGet : List (String × Json) → String → Option Json
  | [], _ => none
  | (k, v) :: rest, key => if k == key then some v else storeGet rest key

/-- Failure environment: which external operations raise, mirroring the
`try/except` blocks of the Python code.  `readError` is the text of the
exception raised by a failing read (`str(e)`). -/
structure Env : Type where
  storeWriteFails : Bool := false
  enqueueFails : Bool := false
  storeReadFails : Bool := false
  readError : String := "connection error"

/-- Environment in which every external operation succeeds. -/
def envOk : Env := {}

/-- Outcome of `create_task` at its caller: either the returned task id, or
the exception re-raised by the `except` clause. -/
inductive CreateResult : Type where
  | ok (task_id : String) : CreateResult
  | err (msg : String) : CreateResult
deriving Repr

/-- Check whether a `create_task` outcome returned a task id. -/
def CreateResult.isOk : CreateResult → Bool
  | CreateResult.ok _ => true
  | CreateResult.err _ => false

/-- Python `metadata or \x7b\x7d` in `create_task`: `None` is replaced by the
empty dict (an empty dict is falsy in Python and is replaced by a fresh empty
dict, which is equal to it as a value). -/
def metadataOrEmpty : Option (List (String × Json)) → List (String × Json)
  | none => []
  | some m => m

/-- Model of `TextGenerationProducer.create_task` (api_server.py lines
64-113).  The fresh `uuid.uuid4()` is the parameter `task_id` and
`time.time()` is the parameter `now`.  The payload dict is built, written to
Redis with `setex` (TTL elided: expiry is modelled as key absence), then
published to RabbitMQ with `json.dumps` of the same dict as the body.  If the
store write raises, the `except` clause re-raises and nothing is published;
if the publish raises after a successful store write, the `except` clause
re-raises, leaving the stored record orphaned. -/
def create_task (env : Env) (s : SysState) (task_id : String) (prompt : String)
    (metadata : Option (List (String × Json))) (now : Int) :
    SysState × CreateResult :=
  let task_payload : Task :=
    { task_id := task_id, prompt := prompt,
      metadata := metadataOrEmpty metadata,
      created_at := now, status := STATUS_PENDING }
  let body : String := Json.dumps (taskToJson task_payload)
  if env.storeWriteFails then
    (s, CreateResult.err "store write failed")
  else
    let s1 : SysState :=
      { s with redis := (get_task_key task_id, taskToJson task_payload) :: s.redis }
    if env.enqueueFails then
      (s1, CreateResult.err "enqueue failed")
    else
      ({ s1 with queue := s1.queue ++ [body] }, CreateResult.ok task_id)

/-- Model of `TextGenerationProducer.get_task_status` (api_server.py lines
115-144).  A raising read is caught and mapped to the ERROR dict; an absent
(or expired) key maps to the NOT_FOUND dict; otherwise the stored record is
parsed with `json.loads` and returned.  The state is returned unchanged: the
function performs no store write. -/
def get_task_status (env : Env) (s : SysState) (task_id : String) :
    SysState × Json :=
  (s,
   if env.storeReadFails then
     Json.obj [("task_id", Json.str task_id),
               ("status", Json.str "ERROR"),
               ("error", Json.str env.readError)]
   else
     match storeGet s.redis (get_task_key task_id) with
     | none =>
         Json.obj [("task_id", Json.str task_id),
                   ("status", Json.str "NOT_FOUND"),
                   ("error", Json.str "Task not found or expired")]
     | some task_data => task_data)

/-- Test of a polled record's status against one status constant.  Python
reads `status = task_data.get("status", "UNKNOWN")` once and compares it to
the status constants; a missing key gives `"UNKNOWN"` and a non-string value
compares unequal to every constant, so `status == c` holds exactly when the
dict maps "status" to the string `c`. -/
def statusIs (task_data : Json) (c : String) : Bool :=
  match dictGet task_data "status" with
  | some (Json.str st) => st == c
  | _ => false

/-- Loop body of `TextGenerationClient.poll_result` (client_test.py lines
59-90), fuel = remaining iterations of `range(1, max_attempts + 1)`,
`performed` = attempts already made.  Each attempt reads the status; a
COMPLETED or FAILED record is returned, a NOT_FOUND or ERROR status returns
`None` at once, otherwise the loop sleeps for `poll_interval` (during which
the external world may rewrite the store: `interfere`) and retries.  The
result carries the final state, the Python return value, and the number of
`get_task_status` calls performed. -/
def pollLoop (envs : Nat → Env) (interfere : Nat → SysState → SysState)
    (task_id : String) :
    Nat → Nat → SysState → SysState × Option Json × Nat
  | 0, performed, s => (s, none, performed)
  | fuel + 1, performed, s =>
      let attempt := performed + 1
      let s1 := (get_task_status (envs attempt) s task_id).1
      let task_data := (get_task_status (envs attempt) s task_id).2
      if statusIs task_data STATUS_COMPLETED then
        (s1, some task_data, attempt)
      else if statusIs task_data STATUS_FAILED then
        (s1, some task_data, attempt)
      else if statusIs task_data "NOT_FOUND" || statusIs task_data "ERROR" then
        (s1, none, attempt)
      else
        pollLoop envs interfere task_id fuel attempt (interfere attempt s1)

/-- Model of `TextGenerationClient.poll_result` (client_test.py lines 37-90).
The `poll_interval` parameter is the duration of the `time.sleep` between
attempts; it does not influence the returned value, only wall-clock time, so
it is threaded but semantically inert. -/
def poll_result (envs : Nat → Env) (interfere : Nat → SysState → SysState)
    (s : SysState) (task_id : String) (poll_interval : Nat)
    (max_attempts : Nat) : SysState × Option Json × Nat :=
  let _ := poll_interval
  pollLoop envs interfere task_id max_attempts 0 s

/-- Model of `TextGenerationClient.submit_and_wait` (client_test.py lines
92-113): submit through `create_task` (a raising create propagates to the
caller as `Except.error`), then poll.  The `Nat` in the payload counts the
polling attempts performed. -/
def submit_and_wait (env : Env) (envs : Nat → Env)
    (interfere : Nat → SysState → SysState) (s : SysState)
    (task_id prompt : String) (metadata : Option (List (String × Json)))
    (now : Int) (poll_interval : Nat) (max_attempts : Nat) :
    SysState × Except String (Option Json × Nat) :=
  match create_task env s task_id prompt metadata now with
  | (s1, CreateResult.ok tid) =>
      let r := poll_result envs interfere s1 tid poll_interval max_attempts
      (r.1, Except.ok r.2)
  | (s1, CreateResult.err e) => (s1, Except.error e)

/-- Update of one key in an object's field list, as Python dict assignment:
replace the binding in place when the key is present, append it otherwise. -/
def dictSet : List (String × Json) → String → Json → List (String × Json)
  | [], k, v => [(k, v)]
  | (k', v') :: rest, k, v =>
      if k' == k then (k, v) :: rest else (k', v') :: dictSet rest k v

/-- Removal of one key from an object's field list (Python `dict.pop`). -/
def dictDrop : List (String × Json) → String → List (String × Json)
  | [], _ => []
  | (k', v') :: rest, k =>
      if k' == k then dictDrop rest k else (k', v') :: dictDrop rest k

/-- Write of one key in the Status Store (`redis_client.setex`): the new
binding shadows any older one. -/
def storeSet (redis : List (String × Json)) (key : String) (v : Json) :
    List (String × Json) :=
  (key, v) :: redis

/-- Modelled from the spec: the worker-side transition `mark_processing`
(spec section 4.1) — no worker implementation exists in the repository
sources.  Invoked by a worker after claiming a task; transitions
PENDING→PROCESSING by read-modify-write of the full record; a missing
(expired) record is a no-op success; a record whose status is not PENDING is
left unchanged (the spec's state machine allows PENDING→PROCESSING as the
only transition into PROCESSING). -/
def mark_processing (s : SysState) (task_id : String) : SysState :=
  match storeGet s.redis (get_task_key task_id) with
  | none => s
  | some j =>
      if statusIs j STATUS_PENDING then
        match j with
        | Json.obj fs =>
            { s with redis := storeSet s.redis (get_task_key task_id)
                       (Json.obj (dictSet fs "status" (Json.str STATUS_PROCESSING))) }
        | _ => s
      else s

/-- Modelled from the spec: the worker-side transition `mark_completed`
(spec section 4.1) — no worker implementation exists in the repository
sources.  Sets terminal status COMPLETED, `completed_at`, and `result`, and
drops any `error` field (spec section 3: result and error are mutually
exclusive), re-writing the full record; a missing record is a no-op;
terminal-to-terminal overwrites are accepted (last writer wins, spec
section 4.2). -/
def mark_completed (s : SysState) (task_id : String) (result : String)
    (now : Int) : SysState :=
  match storeGet s.redis (get_task_key task_id) with
  | none => s
  | some (Json.obj fs) =>
      { s with redis := storeSet s.redis (get_task_key task_id)
                 (Json.obj (dictSet (dictSet (dictSet (dictDrop fs "error")
                    "status" (Json.str STATUS_COMPLETED))
                    "completed_at" (Json.num now))
                    "result" (Json.str result))) }
  | some _ => s

/-- Modelled from the spec: the worker-side transition `mark_failed` (spec
section 4.1) — no worker implementation exists in the repository sources.
Sets terminal status FAILED, `completed_at`, and `error`, and drops any
`result` field, re-writing the full record; a missing record is a no-op;
terminal-to-terminal overwrites are accepted (last writer wins). -/
def mark_failed (s : SysState) (task_id : String) (error : String)
    (now : Int) : SysState :=
  match storeGet s.redis (get_task_key task_id) with
  | none => s
  | some (Json.obj fs) =>
      { s with redis := storeSet s.redis (get_task_key task_id)
                 (Json.obj (dictSet (dictSet (dictSet (dictDrop fs "result")
                    "status" (Json.str STATUS_FAILED))
                    "completed_at" (Json.num now))
                    "error" (Json.str error))) }
  | some _ => s

/-- Worker-side lifecycle calls, as applied by any interleaving of workers. -/
inductive WorkerOp : Type where
  | processing (task_id : String) : WorkerOp
  | completed (task_id : String) (result : String) (now : Int) : WorkerOp
  | failed (task_id : String) (error : String) (now : Int) : WorkerOp

/-- Task id targeted by a worker-side call. -/
def WorkerOp.taskId : WorkerOp → String
  | WorkerOp.processing tid => tid
  | WorkerOp.completed tid _ _ => tid
  | WorkerOp.failed tid _ _ => tid

/-- Application of one worker-side call to the system state. -/
def applyOp (s : SysState) : WorkerOp → SysState
  | WorkerOp.processing tid => mark_processing s tid
  | WorkerOp.completed tid r now => mark_completed s tid r now
  | WorkerOp.failed tid e now => mark_failed s tid e now

/-- Application of a sequence of worker-side calls, oldest first. -/
def applyOps (s : SysState) : List WorkerOp → SysState
  | [] => s
  | op :: ops => applyOps (applyOp s op) ops

/-- Status string of the record stored for a task: `none` when the record is
absent or its status field is missing or not a string. -/
def recordStatus (s : SysState) (task_id : String) : Option String :=
  match storeGet s.redis (get_task_key task_id) with
  | none => none
  | some j =>
      match dictGet j "status" with
      | some (Json.str st) => some st
      | _ => none

/-- Terminal statuses of the task state machine. -/
def isTerminal (st : String) : Bool :=
  st == STATUS_COMPLETED || st == STATUS_FAILED

/-- One create request observed at the submitter boundary: the fresh uuid
drawn for it, the prompt, the metadata and the submission time. -/
structure CreateReq : Type where
  task_id : String
  prompt : String
  metadata : Option (List (String × Json))
  now : Int

/-- Run of a sequence of successful `create_task` calls, oldest first. -/
def runCreates (s : SysState) : List CreateReq → SysState
  | [] => s
  | r :: rs => runCreates (create_task envOk s r.task_id r.prompt r.metadata r.now).1 rs

/-- State of the system seen at successive polling attempts when `performed`
attempts were already made before the base state `s`: the read of attempt
`performed + i + 1` sees `pollTraceFrom interfere performed s i`, the
external world acting through `interfere` during each sleep. -/
def pollTraceFrom (interfere : Nat → SysState → SysState) (performed : Nat)
    (s : SysState) : Nat → SysState
  | 0 => s
  | i + 1 => interfere (performed + i + 1) (pollTraceFrom interfere performed s i)

/-- Record that an external worker writes for task "t1": already COMPLETED. -/
def lateRecord : Json :=
  taskToJson { task_id := "t1", prompt := "x", metadata := [],
               created_at := 0, status := STATUS_COMPLETED,
               result := some "r" }

/-- External writer that installs the COMPLETED record for task "t1" during
the sleep after the first polling attempt — the record is only transiently
absent at attempt 1. -/
def lateWriter : Nat → SysState → SysState := fun n s =>
  if n = 1 then { s with redis := storeSet s.redis (get_task_key "t1") lateRecord }
  else s

/-- Store holding a PENDING record for task "t1". -/
def pendingState : SysState :=
  { redis := [(get_task_key "t1",
               taskToJson { task_id := "t1", prompt := "x", metadata := [],
                            created_at := 0, status := STATUS_PENDING })],
    queue := [] }

/-- Per-attempt environments whose second store read fails. -/
def secondReadFails : Nat → Env := fun n =>
  if n = 2 then { storeReadFails := true, readError := "boom" } else envOk

/-- Store holding a PROCESSING record for task "t1": already claimed by a
worker. -/
def processingState : SysState :=
  { redis := [(get_task_key "t1",
               taskToJson { task_id := "t1", prompt := "x", metadata := [],
                            created_at := 0, status := STATUS_PROCESSING })],
    queue := [] }

/-- Store holding a COMPLETED record for task "t1". -/
def completedState : SysState :=
  { redis := [(get_task_key "t1",
               taskToJson { task_id := "t1", prompt := "x", metadata := [],
                            created_at := 0, status := STATUS_COMPLETED,
                            result := some "r" })],
    queue := [] }

/-- Worker-side calls exercising a terminal record: a late claim and a
duplicate terminal report. -/
def lateOps : List WorkerOp :=
  [WorkerOp.processing "t1", WorkerOp.failed "t1" "e" 5]

/-- Task keys are derived injectively from task ids. -/
theorem get_task_key_inj {a b : String} (h : get_task_key a = get_task_key b) :
    a = b := by
  simp only [get_task_key, TASK_PREFIX] at h
  have h2 : ("task:" ++ a).data = ("task:" ++ b).data := by rw [h]
  simp only [String.data_append] at h2
  exact String.ext (List.append_cancel_left h2)

/-- Reading back the key just written to the Status Store. -/
theorem storeGet_storeSet_self (redis : List (String × Json)) (k : String)
    (v : Json) : storeGet (storeSet redis k v) k = some v := by
  simp [storeGet, storeSet]

/-- Writing one key leaves reads of any other key unchanged. -/
theorem storeGet_storeSet_other (redis : List (String × Json)) {k' k : String}
    (v : Json) (h : k' ≠ k) : storeGet (storeSet redis k' v) k = storeGet redis k := by
  simp [storeGet, storeSet, h]

/-- Reading back a field just set in an object. -/
theorem lookupField_dictSet_self (fs : List (String × Json)) (k : String)
    (v : Json) : lookupField (dictSet fs k v) k = some v := by
  induction fs with
  | nil => simp [dictSet, lookupField]
  | cons p rest ih =>
      obtain ⟨k', v'⟩ := p
      by_cases hk : k' = k
      · subst hk; simp [dictSet, lookupField]
      · simp [dictSet, lookupField, hk, ih]

/-- Setting one field leaves lookups of any other field unchanged. -/
theorem lookupField_dictSet_other (fs : List (String × Json)) {k' k : String}
    (v : Json) (h : k' ≠ k) :
    lookupField (dictSet fs k' v) k = lookupField fs k := by
  induction fs with
  | nil => simp [dictSet, lookupField, h]
  | cons p rest ih =>
      obtain ⟨k'', v''⟩ := p
      by_cases hk : k'' = k'
      · subst hk; simp [dictSet, lookupField, h]
      · simp [dictSet, lookupField, hk, ih]

/-- Dropping one field leaves lookups of any other field unchanged. -/
theorem lookupField_dictDrop_other (fs : List (String × Json)) {k' k : String}
    (h : k' ≠ k) : lookupField (dictDrop fs k') k = lookupField fs k := by
  induction fs with
  | nil => simp [dictDrop, lookupField]
  | cons p rest ih =>
      obtain ⟨k'', v''⟩ := p
      by_cases hk : k'' = k'
      · subst hk; simp [dictDrop, lookupField, h, Ne.symm h, ih]
      · simp [dictDrop, lookupField, hk, ih]

/-- C1: if the Status Store write fails in `create_task`, the payload is
never enqueued onto the Work Channel (the channel is unchanged); and if the
enqueue fails after a successful store write, `create_task` surfaces the
failure to the caller instead of returning a task id (and nothing reached
the channel). -/
theorem create_task_failure_atomicity (env : Env) (s : SysState)
    (task_id prompt : String) (metadata : Option (List (String × Json)))
    (now : Int) :
    (env.storeWriteFails = true →
      (create_task env s task_id prompt metadata now).1.queue = s.queue) ∧
    (env.storeWriteFails = false → env.enqueueFails = true →
      ((create_task env s task_id prompt metadata now).2.isOk = false ∧
       (create_task env s task_id prompt metadata now).1.queue = s.queue)) := by
  constructor
  · intro h
    simp [create_task, h]
  · intro h1 h2
    simp [create_task, h1, h2, CreateResult.isOk]

/-- Witness for C1 at concrete inputs: a failing store write leaves the
channel empty; a failing enqueue after a successful write returns no task
id. -/
theorem create_task_failure_atomicity_witness :
    ((create_task ⟨true, false, false, "e"⟩ emptyState "t1" "p" none 0).1.queue
       = emptyState.queue) ∧
    ((create_task ⟨false, true, false, "e"⟩ emptyState "t1" "p" none 0).2.isOk = false ∧
     (create_task ⟨false, true, false, "e"⟩ emptyState "t1" "p" none 0).1.queue
       = emptyState.queue) :=
  ⟨(create_task_failure_atomicity ⟨true, false, false, "e"⟩ emptyState "t1" "p" none 0).1 rfl,
   (create_task_failure_atomicity ⟨false, true, false, "e"⟩ emptyState "t1" "p" none 0).2 rfl rfl⟩

/-- C3: when no external operation fails, `create_task` returns the fresh
task id, and an immediately following `get_task_status` (before any worker
acts) returns a record with status PENDING whose prompt and metadata are the
submitted ones, unchanged. -/
theorem create_then_get_pending (env : Env) (s : SysState)
    (task_id prompt : String) (metadata : List (String × Json)) (now : Int)
    (h1 : env.storeWriteFails = false) (h2 : env.enqueueFails = false)
    (h3 : env.storeReadFails = false) :
    (create_task env s task_id prompt (some metadata) now).2
      = CreateResult.ok task_id ∧
    (dictGet ((get_task_status env
        (create_task env s task_id prompt (some metadata) now).1 task_id).2)
       "status" = some (Json.str STATUS_PENDING) ∧
     dictGet ((get_task_status env
        (create_task env s task_id prompt (some metadata) now).1 task_id).2)
       "prompt" = some (Json.str prompt) ∧
     dictGet ((get_task_status env
        (create_task env s task_id prompt (some metadata) now).1 task_id).2)
       "metadata" = some (Json.obj metadata) ∧
     dictGet ((get_task_status env
        (create_task env s task_id prompt (some metadata) now).1 task_id).2)
       "task_id" = some (Json.str task_id)) := by
  refine ⟨by simp [create_task, h1, h2], ?_⟩
  have hget : (get_task_status env
      (create_task env s task_id prompt (some metadata) now).1 task_id).2
      = taskToJson { task_id := task_id, prompt := prompt, metadata := metadata,
                     created_at := now, status := STATUS_PENDING } := by
    simp [create_task, h1, h2, get_task_status, h3, metadataOrEmpty,
          storeGet, storeSet]
  rw [hget]
  simp [taskToJson, dictGet, lookupField, optField]

/-- Witness for C3 at concrete inputs. -/
theorem create_then_get_pending_witness :
    (create_task envOk emptyState "t1" "p" (some [("k", Json.num 1)]) 7).2
      = CreateResult.ok "t1" ∧
    (dictGet ((get_task_status envOk
        (create_task envOk emptyState "t1" "p" (some [("k", Json.num 1)]) 7).1 "t1").2)
       "status" = some (Json.str STATUS_PENDING) ∧
     dictGet ((get_task_status envOk
        (create_task envOk emptyState "t1" "p" (some [("k", Json.num 1)]) 7).1 "t1").2)
       "prompt" = some (Json.str "p") ∧
     dictGet ((get_task_status envOk
        (create_task envOk emptyState "t1" "p" (some [("k", Json.num 1)]) 7).1 "t1").2)
       "metadata" = some (Json.obj [("k", Json.num 1)]) ∧
     dictGet ((get_task_status envOk
        (create_task envOk emptyState "t1" "p" (some [("k", Json.num 1)]) 7).1 "t1").2)
       "task_id" = some (Json.str "t1")) :=
  create_then_get_pending envOk emptyState "t1" "p" [("k", Json.num 1)] 7 rfl rfl rfl

/-- Creating a task under a successful environment only prepends the task's
own key to the store. -/
theorem create_redis_shape (s : SysState) (r : CreateReq) :
    (create_task envOk s r.task_id r.prompt r.metadata r.now).1.redis
      = storeSet s.redis (get_task_key r.task_id)
          (taskToJson { task_id := r.task_id, prompt := r.prompt,
                        metadata := metadataOrEmpty r.metadata,
                        created_at := r.now, status := STATUS_PENDING }) := by
  simp [create_task, envOk, storeSet]

/-- A key absent from the store stays absent across any run of creates none
of which drew that task id. -/
theorem storeGet_runCreates_absent (reqs : List CreateReq) (s : SysState)
    (tid : String) (habs : storeGet s.redis (get_task_key tid) = none)
    (hnot : tid ∉ reqs.map CreateReq.task_id) :
    storeGet (runCreates s reqs).redis (get_task_key tid) = none := by
  induction reqs generalizing s with
  | nil => exact habs
  | cons r rs ih =>
      simp only [List.map_cons, List.mem_cons, not_or] at hnot
      have hkey : get_task_key r.task_id ≠ get_task_key tid := by
        intro hk
        exact hnot.1 (get_task_key_inj hk).symm
      have habs' : storeGet
          (create_task envOk s r.task_id r.prompt r.metadata r.now).1.redis
          (get_task_key tid) = none := by
        rw [create_redis_shape s r, storeGet_storeSet_other _ _ hkey]
        exact habs
      exact ih _ habs' hnot.2

/-- C4: `get_task_status` answers with a returned NOT_FOUND dict — not a
raised exception — when the key is absent or expired, in particular for any
task id never drawn by a prior create starting from the empty store; a
failing store read answers with a distinct returned ERROR dict carrying the
underlying failure text; and the two outcomes are distinguishable by their
status field.  (The model of `get_task_status` is a total function: the
`except` clause of the source leaves no exception to propagate.) -/
theorem get_status_signals (env env' : Env) (s : SysState) (task_id : String)
    (reqs : List CreateReq) :
    (env.storeReadFails = true →
      (get_task_status env s task_id).2
        = Json.obj [("task_id", Json.str task_id),
                    ("status", Json.str "ERROR"),
                    ("error", Json.str env.readError)]) ∧
    (env'.storeReadFails = false →
     storeGet s.redis (get_task_key task_id) = none →
      (get_task_status env' s task_id).2
        = Json.obj [("task_id", Json.str task_id),
                    ("status", Json.str "NOT_FOUND"),
                    ("error", Json.str "Task not found or expired")]) ∧
    (task_id ∉ reqs.map CreateReq.task_id →
      dictGet ((get_task_status envOk (runCreates emptyState reqs) task_id).2)
          "status" = some (Json.str "NOT_FOUND")) ∧
    (env.storeReadFails = true → env'.storeReadFails = false →
     storeGet s.redis (get_task_key task_id) = none →
      dictGet ((get_task_status env s task_id).2) "status"
        ≠ dictGet ((get_task_status env' s task_id).2) "status") := by
  refine ⟨?_, ?_, ?_, ?_⟩
  · intro h
    simp [get_task_status, h]
  · intro h habs
    simp [get_task_status, h, habs]
  · intro hnot
    have habs : storeGet (runCreates emptyState reqs).redis (get_task_key task_id)
        = none :=
      storeGet_runCreates_absent reqs emptyState task_id rfl hnot
    simp [get_task_status, envOk, habs, dictGet, lookupField]
  · intro h h' habs
    simp [get_task_status, h, h', habs, dictGet, lookupField]

/-- Witness for C4 at concrete inputs: a failing read yields the ERROR dict,
an absent key yields the NOT_FOUND dict, a task id never created yields
NOT_FOUND, and the two signals differ in their status field. -/
theorem get_status_signals_witness :
    ((get_task_status ⟨false, false, true, "boom"⟩ emptyState "b").2
       = Json.obj [("task_id", Json.str "b"),
                   ("status", Json.str "ERROR"),
                   ("error", Json.str "boom")]) ∧
    ((get_task_status envOk emptyState "b").2
       = Json.obj [("task_id", Json.str "b"),
                   ("status", Json.str "NOT_FOUND"),
                   ("error", Json.str "Task not found or expired")]) ∧
    (dictGet ((get_task_status envOk
        (runCreates emptyState [⟨"a", "p", none, 0⟩]) "b").2) "status"
       = some (Json.str "NOT_FOUND")) ∧
    (dictGet ((get_task_status ⟨false, false, true, "boom"⟩ emptyState "b").2) "status"
       ≠ dictGet ((get_task_status envOk emptyState "b").2) "status") := by
  have h := get_status_signals ⟨false, false, true, "boom"⟩ envOk emptyState "b"
    [⟨"a", "p", none, 0⟩]
  refine ⟨h.1 rfl, h.2.1 rfl rfl, h.2.2.1 ?_, h.2.2.2 rfl rfl rfl⟩
  simp

/-- C7: on a successful create, the record stored for the task is exactly
the payload dict (task_id, prompt, metadata, created_at, status), and the
body published onto the Work Channel is byte-for-byte its rendering by
`json.dumps` — the same serialized JSON record as the Status Store write. -/
theorem create_wire_equals_store (env : Env) (s : SysState)
    (task_id prompt : String) (metadata : Option (List (String × Json)))
    (now : Int) (h1 : env.storeWriteFails = false)
    (h2 : env.enqueueFails = false) :
    storeGet (create_task env s task_id prompt metadata now).1.redis
        (get_task_key task_id)
      = some (taskToJson { task_id := task_id, prompt := prompt,
                           metadata := metadataOrEmpty metadata,
                           created_at := now, status := STATUS_PENDING }) ∧
    (create_task env s task_id prompt metadata now).1.queue
      = s.queue ++ [Json.dumps (taskToJson
          { task_id := task_id, prompt := prompt,
            metadata := metadataOrEmpty metadata,
            created_at := now, status := STATUS_PENDING })] := by
  constructor
  · simp [create_task, h1, h2, storeGet]
  · simp [create_task, h1, h2]

/-- Witness for C7 at concrete inputs. -/
theorem create_wire_equals_store_witness :
    storeGet (create_task envOk emptyState "t" "p" none 3).1.redis
        (get_task_key "t")
      = some (taskToJson { task_id := "t", prompt := "p", metadata := [],
                           created_at := 3, status := STATUS_PENDING }) ∧
    (create_task envOk emptyState "t" "p" none 3).1.queue
      = emptyState.queue ++ [Json.dumps (taskToJson
          { task_id := "t", prompt := "p", metadata := [],
            created_at := 3, status := STATUS_PENDING })] :=
  create_wire_equals_store envOk emptyState "t" "p" none 3 rfl rfl

/-- C8: serializing a Task record and deserializing the result reproduces
every field exactly; and for records where `result`, `error` or
`completed_at` is absent — in particular every non-terminal record — the
serialized object simply omits that key. -/
theorem task_roundtrip (t : Task) :
    taskFromJson (taskToJson t) = some t ∧
    (t.result = none → hasKey (taskToJson t) "result" = false) ∧
    (t.error = none → hasKey (taskToJson t) "error" = false) ∧
    (t.completed_at = none → hasKey (taskToJson t) "completed_at" = false) := by
  obtain ⟨tid, p, md, c, st, r, e, ca⟩ := t
  cases r <;> cases e <;> cases ca <;>
    simp [taskToJson, taskFromJson, optField, dictGet, lookupField, hasKey]

/-- Witness for C8 at a concrete non-terminal record: round trip is exact
and the optional keys are absent. -/
theorem task_roundtrip_witness :
    taskFromJson (taskToJson { task_id := "t", prompt := "p", metadata := [],
                               created_at := 0, status := STATUS_PENDING })
      = some { task_id := "t", prompt := "p", metadata := [],
               created_at := 0, status := STATUS_PENDING } ∧
    hasKey (taskToJson { task_id := "t", prompt := "p", metadata := [],
                         created_at := 0, status := STATUS_PENDING }) "result"
      = false ∧
    hasKey (taskToJson { task_id := "t", prompt := "p", metadata := [],
                         created_at := 0, status := STATUS_PENDING }) "error"
      = false :=
  ⟨(task_roundtrip _).1,
   (task_roundtrip _).2.1 rfl,
   (task_roundtrip _).2.2.1 rfl⟩

/-- Status field of a serialized task record. -/
theorem dictGet_taskToJson_status (t : Task) :
    dictGet (taskToJson t) "status" = some (Json.str t.status) := by
  obtain ⟨tid, p, md, c, st, r, e, ca⟩ := t
  simp [taskToJson, dictGet, lookupField]

/-- Status test of a serialized task record is string comparison with its
status field. -/
theorem statusIs_taskToJson (t : Task) (c : String) :
    statusIs (taskToJson t) c = (t.status == c) := by
  simp [statusIs, dictGet_taskToJson_status]

/-- With no external writer acting between attempts, the polling loop
returns the system state untouched: every attempt is a pure read. -/
theorem pollLoop_id_state (envs : Nat → Env) (task_id : String) :
    ∀ (fuel performed : Nat) (s : SysState),
      (pollLoop envs (fun _ s' => s') task_id fuel performed s).1 = s := by
  intro fuel
  induction fuel with
  | zero => intro performed s; rfl
  | succ n ih =>
      intro performed s
      rw [pollLoop]
      split
      · rfl
      · split
        · rfl
        · split
          · rfl
          · exact ih (performed + 1) s

/-- C9: polling never mutates the stored Task record — in the absence of any
external writer, the Status Store (indeed the whole system state) after the
poll loop equals the state before it, for every task id, every per-attempt
environment and every number of attempts. -/
theorem poll_result_pure_read (envs : Nat → Env) (s : SysState)
    (task_id : String) (poll_interval max_attempts : Nat) :
    (poll_result envs (fun _ s' => s') s task_id poll_interval max_attempts).1
      = s :=
  pollLoop_id_state envs task_id max_attempts 0 s

/-- A record that stays PENDING makes the polling loop run through all of
its remaining attempts and time out. -/
theorem pollLoop_pending_timeout (task_id : String) (s : SysState) (t : Task)
    (hs : storeGet s.redis (get_task_key task_id) = some (taskToJson t))
    (hst : t.status = STATUS_PENDING) :
    ∀ fuel performed,
      pollLoop (fun _ => envOk) (fun _ s' => s') task_id fuel performed s
        = (s, none, performed + fuel) := by
  intro fuel
  induction fuel with
  | zero => intro performed; simp [pollLoop]
  | succ n ih =>
      intro performed
      have hget : get_task_status envOk s task_id = (s, taskToJson t) := by
        simp [get_task_status, envOk, hs]
      have hc : statusIs (taskToJson t) STATUS_COMPLETED = false := by
        rw [statusIs_taskToJson, hst]; decide
      have hf : statusIs (taskToJson t) STATUS_FAILED = false := by
        rw [statusIs_taskToJson, hst]; decide
      have hn : statusIs (taskToJson t) "NOT_FOUND" = false := by
        rw [statusIs_taskToJson, hst]; decide
      have he : statusIs (taskToJson t) "ERROR" = false := by
        rw [statusIs_taskToJson, hst]; decide
      rw [pollLoop]
      simp only [hget, hc, hf, hn, he, Bool.or_self, Bool.false_or,
        if_false, ite_false]
      rw [ih (performed + 1)]
      have harith : performed + 1 + n = performed + (n + 1) := by omega
      rw [harith]
      simp

/-- C5: `submit_and_wait` with `poll_interval = 1` and `max_attempts = 3`
against a task whose stored record never leaves PENDING (no worker acts)
performs exactly 3 `get_task_status` polling attempts and then returns the
timeout outcome (`None` in the source), not earlier and not later. -/
theorem submit_and_wait_timeout_three (s : SysState) (task_id prompt : String)
    (metadata : Option (List (String × Json))) (now : Int) :
    (submit_and_wait envOk (fun _ => envOk) (fun _ s' => s') s task_id prompt
        metadata now 1 3).2 = Except.ok (none, 3) := by
  have hcreate : create_task envOk s task_id prompt metadata now
      = ({ redis := (get_task_key task_id,
             taskToJson { task_id := task_id, prompt := prompt,
                          metadata := metadataOrEmpty metadata,
                          created_at := now, status := STATUS_PENDING })
             :: s.redis,
           queue := s.queue ++ [Json.dumps (taskToJson
             { task_id := task_id, prompt := prompt,
               metadata := metadataOrEmpty metadata,
               created_at := now, status := STATUS_PENDING })] },
         CreateResult.ok task_id) := by
    simp [create_task, envOk]
  simp only [submit_and_wait, hcreate, poll_result]
  rw [pollLoop_pending_timeout task_id _
      { task_id := task_id, prompt := prompt,
        metadata := metadataOrEmpty metadata,
        created_at := now, status := STATUS_PENDING }
      (by simp [storeGet]) rfl 3 0]

/-- A polled record carries at most one status string: a successful test
against one constant refutes the test against any other. -/
theorem statusIs_unique {j : Json} {a b : String} (h : statusIs j a = true)
    (hab : a ≠ b) : statusIs j b = false := by
  cases hdg : dictGet j "status" with
  | none => simp [statusIs, hdg] at h
  | some v =>
      cases v with
      | str st =>
          simp [statusIs, hdg] at h ⊢
          subst h
          exact hab
      | null => simp [statusIs, hdg] at h
      | bool x => simp [statusIs, hdg] at h
      | num x => simp [statusIs, hdg] at h
      | arr x => simp [statusIs, hdg] at h
      | obj x => simp [statusIs, hdg] at h

/-- Reading the task status never changes the system state: the read path of
the lifecycle manager performs no store write. -/
theorem get_task_status_fst (env : Env) (s : SysState) (task_id : String) :
    (get_task_status env s task_id).1 = s := rfl

/-- Shifting the base of the polling trace by one performed attempt. -/
theorem pollTraceFrom_shift (interfere : Nat → SysState → SysState)
    (performed : Nat) (s : SysState) :
    ∀ i, pollTraceFrom interfere (performed + 1) (interfere (performed + 1) s) i
      = pollTraceFrom interfere performed s (i + 1) := by
  intro i
  induction i with
  | zero => rfl
  | succ m ih =>
      show interfere (performed + 1 + m + 1)
          (pollTraceFrom interfere (performed + 1) (interfere (performed + 1) s) m)
        = interfere (performed + (m + 1) + 1)
          (pollTraceFrom interfere performed s (m + 1))
      rw [ih]
      have harith : performed + 1 + m + 1 = performed + (m + 1) + 1 := by omega
      rw [harith]

/-- The polling loop returns `None` on the first attempt whose read reports
NOT_FOUND or ERROR, after earlier attempts none of which met an exit
condition of the loop (their reads were neither COMPLETED, FAILED, NOT_FOUND
nor ERROR — e.g. PENDING, PROCESSING, or a missing status field), performing
no further retries. -/
theorem pollLoop_first_miss (envs : Nat → Env)
    (interfere : Nat → SysState → SysState) (task_id : String) :
    ∀ (k fuel performed : Nat) (s : SysState),
      k < fuel →
      (∀ i, i < k →
        statusIs ((get_task_status (envs (performed + i + 1))
          (pollTraceFrom interfere performed s i) task_id).2)
          STATUS_COMPLETED = false ∧
        statusIs ((get_task_status (envs (performed + i + 1))
          (pollTraceFrom interfere performed s i) task_id).2)
          STATUS_FAILED = false ∧
        statusIs ((get_task_status (envs (performed + i + 1))
          (pollTraceFrom interfere performed s i) task_id).2)
          "NOT_FOUND" = false ∧
        statusIs ((get_task_status (envs (performed + i + 1))
          (pollTraceFrom interfere performed s i) task_id).2)
          "ERROR" = false) →
      (statusIs ((get_task_status (envs (performed + k + 1))
          (pollTraceFrom interfere performed s k) task_id).2)
          "NOT_FOUND" = true ∨
       statusIs ((get_task_status (envs (performed + k + 1))
          (pollTraceFrom interfere performed s k) task_id).2)
          "ERROR" = true) →
      (pollLoop envs interfere task_id fuel performed s).2
        = (none, performed + k + 1) := by
  intro k
  induction k with
  | zero =>
      intro fuel performed s hfuel hcont hmiss
      cases fuel with
      | zero => omega
      | succ m =>
          have htd := hmiss
          simp only [pollTraceFrom] at htd
          have hc : statusIs ((get_task_status (envs (performed + 0 + 1)) s
              task_id).2) STATUS_COMPLETED = false := by
            cases htd with
            | inl h => exact statusIs_unique h (by decide)
            | inr h => exact statusIs_unique h (by decide)
          have hf : statusIs ((get_task_status (envs (performed + 0 + 1)) s
              task_id).2) STATUS_FAILED = false := by
            cases htd with
            | inl h => exact statusIs_unique h (by decide)
            | inr h => exact statusIs_unique h (by decide)
          have hor : (statusIs ((get_task_status (envs (performed + 0 + 1)) s
              task_id).2) "NOT_FOUND"
              || statusIs ((get_task_status (envs (performed + 0 + 1)) s
              task_id).2) "ERROR") = true := by
            cases htd with
            | inl h => simp [h]
            | inr h => simp [h]
          rw [pollLoop]
          have hidx : performed + 0 + 1 = performed + 1 := by omega
          rw [hidx] at hc hf hor
          simp only [hc, hf, hor, Bool.false_eq_true, if_false, if_true]
  | succ k ih =>
      intro fuel performed s hfuel hcont hmiss
      cases fuel with
      | zero => omega
      | succ m =>
          obtain ⟨hc, hf, hn, he⟩ := hcont 0 (by omega)
          simp only [pollTraceFrom] at hc hf hn he
          have hidx : performed + 0 + 1 = performed + 1 := by omega
          rw [hidx] at hc hf hn he
          rw [pollLoop]
          simp only [hc, hf, hn, he, Bool.or_self, Bool.false_or,
            Bool.false_eq_true, if_false, get_task_status_fst]
          have hgoal := ih m (performed + 1) (interfere (performed + 1) s)
            (by omega)
            (by
              intro i hi
              rw [pollTraceFrom_shift]
              have e : performed + 1 + i + 1 = performed + (i + 1) + 1 := by
                omega
              rw [e]
              exact hcont (i + 1) (by omega))
            (by
              rw [pollTraceFrom_shift]
              have e : performed + 1 + k + 1 = performed + (k + 1) + 1 := by
                omega
              rw [e]
              exact hmiss)
          rw [hgoal]
          have e2 : performed + 1 + k + 1 = performed + (k + 1) + 1 := by omega
          rw [e2]

/-- C6 (amended): if `get_task_status` reports NOT_FOUND or ERROR on any
polling attempt reached by the loop (no earlier attempt having met an exit
condition: their reads were neither COMPLETED, FAILED, NOT_FOUND nor ERROR),
the poll loop returns `None` immediately on that attempt with no further
retries, even when retry attempts remain.  A transient miss is not
tolerated: the first NOT_FOUND aborts polling at once (see the
counterexample theorem for the claim's tolerance clause). -/
theorem poll_miss_returns_immediately (envs : Nat → Env)
    (interfere : Nat → SysState → SysState) (s : SysState) (task_id : String)
    (poll_interval max_attempts k : Nat) (hk : k < max_attempts)
    (hcont : ∀ i, i < k →
      statusIs ((get_task_status (envs (i + 1))
        (pollTraceFrom interfere 0 s i) task_id).2) STATUS_COMPLETED = false ∧
      statusIs ((get_task_status (envs (i + 1))
        (pollTraceFrom interfere 0 s i) task_id).2) STATUS_FAILED = false ∧
      statusIs ((get_task_status (envs (i + 1))
        (pollTraceFrom interfere 0 s i) task_id).2) "NOT_FOUND" = false ∧
      statusIs ((get_task_status (envs (i + 1))
        (pollTraceFrom interfere 0 s i) task_id).2) "ERROR" = false)
    (hmiss : statusIs ((get_task_status (envs (k + 1))
        (pollTraceFrom interfere 0 s k) task_id).2) "NOT_FOUND" = true ∨
      statusIs ((get_task_status (envs (k + 1))
        (pollTraceFrom interfere 0 s k) task_id).2) "ERROR" = true) :
    (poll_result envs interfere s task_id poll_interval max_attempts).2
      = (none, k + 1) := by
  have h := pollLoop_first_miss envs interfere task_id k max_attempts 0 s hk
    (by
      intro i hi
      have e : 0 + i + 1 = i + 1 := by omega
      rw [e]
      exact hcont i hi)
    (by
      have e : 0 + k + 1 = k + 1 := by omega
      rw [e]
      exact hmiss)
  have e : 0 + k + 1 = k + 1 := by omega
  rw [e] at h
  exact h

/-- Witness for the amended C6: a PROCESSING read on attempt 1 (the record
already claimed by a worker), a failing store read on attempt 2, three
attempts allowed — polling returns `None` on attempt 2, leaving the
remaining attempt unused. -/
theorem poll_miss_returns_immediately_witness :
    (poll_result secondReadFails (fun _ s' => s') processingState "t1" 1 3).2
      = (none, 2) :=
  poll_miss_returns_immediately secondReadFails (fun _ s' => s')
    processingState "t1" 1 3 1 (by omega)
    (by
      intro i hi
      have h0 : i = 0 := by omega
      subst h0
      decide)
    (Or.inr (by decide))

/-- C6 counterexample: the claim's tolerance clause fails on the code.  The
record for task "t1" is absent at attempt 1 only (an external worker
installs it, already COMPLETED, during the first sleep), and two retry
attempts remain, yet the poll loop returns `None` on attempt 1 instead of
retrying and observing the COMPLETED record at attempt 2. -/
theorem poll_transient_miss_counterexample :
    (poll_result (fun _ => envOk) lateWriter emptyState "t1" 1 3).2
      = (none, 1) ∧
    statusIs ((get_task_status envOk (lateWriter 1 emptyState) "t1").2)
      STATUS_COMPLETED = true := by
  constructor
  · rfl
  · decide

/-- Writing another task's key leaves a record's status unchanged. -/
theorem recordStatus_storeSet_other (s : SysState) {tid' tid : String}
    (v : Json) (h : tid' ≠ tid) :
    recordStatus { s with redis := storeSet s.redis (get_task_key tid') v } tid
      = recordStatus s tid := by
  unfold recordStatus
  rw [storeGet_storeSet_other]
  intro hk
  exact h (get_task_key_inj hk)

/-- A worker-side call on one task never touches another task's record. -/
theorem applyOp_other (s : SysState) (op : WorkerOp) (tid : String)
    (h : op.taskId ≠ tid) :
    recordStatus (applyOp s op) tid = recordStatus s tid := by
  cases op with
  | processing tid' =>
      have h' : tid' ≠ tid := h
      show recordStatus (mark_processing s tid') tid = recordStatus s tid
      unfold mark_processing
      cases hg : storeGet s.redis (get_task_key tid') with
      | none => rfl
      | some j =>
          by_cases hp : statusIs j STATUS_PENDING = true
          · simp only [hp, if_true]
            cases j with
            | obj fs => exact recordStatus_storeSet_other s _ h'
            | null => rfl
            | bool x => rfl
            | num x => rfl
            | str x => rfl
            | arr x => rfl
          · simp only [Bool.not_eq_true] at hp
            simp only [hp, Bool.false_eq_true, if_false]
  | completed tid' r now =>
      have h' : tid' ≠ tid := h
      show recordStatus (mark_completed s tid' r now) tid = recordStatus s tid
      unfold mark_completed
      cases hg : storeGet s.redis (get_task_key tid') with
      | none => rfl
      | some j =>
          cases j with
          | obj fs => exact recordStatus_storeSet_other s _ h'
          | null => rfl
          | bool x => rfl
          | num x => rfl
          | str x => rfl
          | arr x => rfl
  | failed tid' e now =>
      have h' : tid' ≠ tid := h
      show recordStatus (mark_failed s tid' e now) tid = recordStatus s tid
      unfold mark_failed
      cases hg : storeGet s.redis (get_task_key tid') with
      | none => rfl
      | some j =>
          cases j with
          | obj fs => exact recordStatus_storeSet_other s _ h'
          | null => rfl
          | bool x => rfl
          | num x => rfl
          | str x => rfl
          | arr x => rfl

/-- Unfolding of `dictGet` on an object. -/
theorem dictGet_obj (fs : List (String × Json)) (k : String) :
    dictGet (Json.obj fs) k = lookupField fs k := rfl

/-- Elimination of a defined record status: the store holds an object whose
status field is that string. -/
theorem recordStatus_some_elim {s : SysState} {tid st : String}
    (h : recordStatus s tid = some st) :
    ∃ fs, storeGet s.redis (get_task_key tid) = some (Json.obj fs) ∧
          lookupField fs "status" = some (Json.str st) := by
  unfold recordStatus at h
  split at h
  · cases h
  · rename_i j hg
    split at h
    · rename_i st0 hdj
      injection h with h2
      subst h2
      cases j with
      | obj fs => exact ⟨fs, hg, hdj⟩
      | null => cases hdj
      | bool x => cases hdj
      | num x => cases hdj
      | str x => cases hdj
      | arr x => cases hdj
    · cases h

/-- Status read-back of the record written by a terminal transition. -/
theorem lookupField_terminal_write (fs : List (String × Json))
    (stv ca rv : Json) {lastk : String} (h : lastk ≠ "status") :
    lookupField (dictSet (dictSet (dictSet fs "status" stv)
        "completed_at" ca) lastk rv) "status" = some stv := by
  rw [lookupField_dictSet_other _ _ h]
  rw [lookupField_dictSet_other _ _
    (show ("completed_at" : String) ≠ "status" by decide)]
  exact lookupField_dictSet_self _ _ _

/-- A worker-side call on a task whose record is already terminal leaves the
record terminal. -/
theorem applyOp_terminal_self (s : SysState) (op : WorkerOp) (tid st : String)
    (hop : op.taskId = tid) (hst : recordStatus s tid = some st)
    (hterm : isTerminal st = true) :
    ∃ st', recordStatus (applyOp s op) tid = some st'
      ∧ isTerminal st' = true := by
  have hcase : st = STATUS_COMPLETED ∨ st = STATUS_FAILED := by
    unfold isTerminal at hterm
    rcases Bool.or_eq_true_iff.mp hterm with h | h
    · exact Or.inl (by simpa using h)
    · exact Or.inr (by simpa using h)
  obtain ⟨fs, hg, hdj⟩ := recordStatus_some_elim hst
  have hnp : statusIs (Json.obj fs) STATUS_PENDING = false := by
    unfold statusIs
    rw [dictGet_obj, hdj]
    rcases hcase with h | h <;> subst h <;> decide
  cases op with
  | processing tid' =>
      have htid : tid' = tid := hop
      subst htid
      have hstate : mark_processing s tid' = s := by
        unfold mark_processing
        rw [hg]
        simp only [hnp, Bool.false_eq_true, if_false]
      exact ⟨st, by rw [show applyOp s (WorkerOp.processing tid')
        = mark_processing s tid' from rfl, hstate]; exact hst, hterm⟩
  | completed tid' r now =>
      have htid : tid' = tid := hop
      subst htid
      have hstate : mark_completed s tid' r now
          = { s with
              redis := storeSet s.redis (get_task_key tid')
                         (Json.obj (dictSet (dictSet (dictSet
                            (dictDrop fs "error")
                            "status" (Json.str STATUS_COMPLETED))
                            "completed_at" (Json.num now))
                            "result" (Json.str r))) } := by
        unfold mark_completed
        rw [hg]
      refine ⟨STATUS_COMPLETED, ?_, by decide⟩
      rw [show applyOp s (WorkerOp.completed tid' r now)
        = mark_completed s tid' r now from rfl, hstate]
      unfold recordStatus
      rw [storeGet_storeSet_self]
      dsimp only [dictGet_obj]
      rw [lookupField_terminal_write _ _ _ _
        (show ("result" : String) ≠ "status" by decide)]
  | failed tid' e now =>
      have htid : tid' = tid := hop
      subst htid
      have hstate : mark_failed s tid' e now
          = { s with
              redis := storeSet s.redis (get_task_key tid')
                         (Json.obj (dictSet (dictSet (dictSet
                            (dictDrop fs "result")
                            "status" (Json.str STATUS_FAILED))
                            "completed_at" (Json.num now))
                            "error" (Json.str e))) } := by
        unfold mark_failed
        rw [hg]
      refine ⟨STATUS_FAILED, ?_, by decide⟩
      rw [show applyOp s (WorkerOp.failed tid' e now)
        = mark_failed s tid' e now from rfl, hstate]
      unfold recordStatus
      rw [storeGet_storeSet_self]
      dsimp only [dictGet_obj]
      rw [lookupField_terminal_write _ _ _ _
        (show ("error" : String) ≠ "status" by decide)]

/-- C2: once a task's record has reached COMPLETED or FAILED, no subsequent
sequence of `mark_processing`, `mark_completed` and `mark_failed` calls (on
any task ids) ever moves its status back to PENDING or PROCESSING: the
record stays in a terminal status. -/
theorem terminal_status_monotone (ops : List WorkerOp) (s : SysState)
    (tid st : String) (hst : recordStatus s tid = some st)
    (hterm : isTerminal st = true) :
    (∃ st', recordStatus (applyOps s ops) tid = some st'
       ∧ isTerminal st' = true) ∧
    recordStatus (applyOps s ops) tid ≠ some STATUS_PENDING ∧
    recordStatus (applyOps s ops) tid ≠ some STATUS_PROCESSING := by
  have main : ∃ st', recordStatus (applyOps s ops) tid = some st'
      ∧ isTerminal st' = true := by
    induction ops generalizing s st with
    | nil => exact ⟨st, hst, hterm⟩
    | cons op rest ih =>
        by_cases hop : op.taskId = tid
        · obtain ⟨st1, h1, h2⟩ := applyOp_terminal_self s op tid st hop hst hterm
          exact ih _ _ h1 h2
        · have h1 := applyOp_other s op tid hop
          rw [hst] at h1
          exact ih _ _ h1 hterm
  obtain ⟨st', h1, h2⟩ := main
  refine ⟨⟨st', h1, h2⟩, ?_, ?_⟩
  · rw [h1]
    intro hc
    have he : st' = STATUS_PENDING := by simpa using hc
    subst he
    exact absurd h2 (by decide)
  · rw [h1]
    intro hc
    have he : st' = STATUS_PROCESSING := by simpa using hc
    subst he
    exact absurd h2 (by decide)

/-- Witness for C2 at concrete inputs: a COMPLETED record survives a
subsequent `mark_processing` and `mark_failed` on its id without ever
showing PENDING or PROCESSING. -/
theorem terminal_status_monotone_witness :
    (∃ st', recordStatus (applyOps completedState lateOps) "t1"
        = some st' ∧ isTerminal st' = true) ∧
    recordStatus (applyOps completedState lateOps) "t1"
      ≠ some STATUS_PENDING ∧
    recordStatus (applyOps completedState lateOps) "t1"
      ≠ some STATUS_PROCESSING :=
  terminal_status_monotone lateOps completedState "t1" STATUS_COMPLETED rfl
    (by decide)

/-- C10 counterexample: the claim as stated fails for a present store value
that is a well-formed JSON object without the expected fields — the stored
value parses, `get_task_status` returns it as-is, and the returned dict has
neither a "task_id" nor a "status" key. -/
theorem get_status_missing_keys_counterexample :
    (get_task_status envOk
        { redis := [(get_task_key "t1", Json.obj [])], queue := [] } "t1").2
      = Json.obj [] ∧
    hasKey (Json.obj []) "task_id" = false ∧
    hasKey (Json.obj []) "status" = false :=
  ⟨rfl, rfl, rfl⟩

/-- C10 (amended): `get_task_status` never propagates an exception (its
model is a total function), and whenever the value stored at the task's key,
if present, is an object containing the keys "task_id" and "status" — in
particular for every record written by `create_task` or the worker
transitions — the returned dictionary contains the keys "task_id" and
"status"; the NOT_FOUND and ERROR returns always do. -/
theorem get_status_keys_total (env : Env) (s : SysState) (task_id : String)
    (h : ∀ j, storeGet s.redis (get_task_key task_id) = some j →
         hasKey j "task_id" = true ∧ hasKey j "status" = true) :
    hasKey (get_task_status env s task_id).2 "task_id" = true ∧
    hasKey (get_task_status env s task_id).2 "status" = true := by
  by_cases hr : env.storeReadFails = true
  · have hv : (get_task_status env s task_id).2
        = Json.obj [("task_id", Json.str task_id),
                    ("status", Json.str "ERROR"),
                    ("error", Json.str env.readError)] := by
      simp [get_task_status, hr]
    rw [hv]
    exact ⟨rfl, rfl⟩
  · have hr' : env.storeReadFails = false := by simpa using hr
    cases hg : storeGet s.redis (get_task_key task_id) with
    | none =>
        have hv : (get_task_status env s task_id).2
            = Json.obj [("task_id", Json.str task_id),
                        ("status", Json.str "NOT_FOUND"),
                        ("error", Json.str "Task not found or expired")] := by
          simp [get_task_status, hr', hg]
        rw [hv]
        exact ⟨rfl, rfl⟩
    | some j =>
        have hv : (get_task_status env s task_id).2 = j := by
          simp [get_task_status, hr', hg]
        rw [hv]
        exact h j hg

/-- Witness for the amended C10 at a concrete well-formed store. -/
theorem get_status_keys_total_witness :
    hasKey (get_task_status envOk pendingState "t1").2 "task_id" = true ∧
    hasKey (get_task_status envOk pendingState "t1").2 "status" = true :=
  get_status_keys_total envOk pendingState "t1"
    (by
      intro j hj
      have hv : taskToJson { task_id := "t1", prompt := "x", metadata := [],
                             created_at := 0, status := STATUS_PENDING } = j := by
        simpa [pendingState, storeGet] using hj
      subst hv
      exact ⟨rfl, rfl⟩)

end Rebis
